import Mathlib

/-!
# Verification of the Sorveteria profile service

Shallow embedding of the backend of the ice-cream-shop profile service
(`src/backend/src`): the in-memory `SorveteriaStore`, the domain service
functions of `sorveteriaService.ts`, and the time-string validation of
`sorveteriaValidation.ts`.  Wall-clock inputs (`new Date()`) are passed as
explicit parameters; JavaScript strings are Lean `String`s; JS `null` and
`undefined` become `Option`; thrown `ServiceError`s become `Except`-style
results paired with the store state left behind.
-/

namespace Sorveteria

/-! ## JavaScript string primitives -/

/-- Lexicographic comparison of character lists by code point, matching the
JavaScript `<` operator on strings (UTF-16 code-unit order coincides with
code-point order for the BMP strings used here). -/
def lexLt : List Char → List Char → Bool
  | _, [] => false
  | [], _ :: _ => true
  | a :: as, b :: bs =>
    if a.toNat < b.toNat then true
    else if b.toNat < a.toNat then false
    else lexLt as bs

/-- JS string `a < b`. -/
def jsLt (a b : String) : Bool := lexLt a.data b.data

/-- JS string `a >= b` (defined as the negation of `b`-greater, i.e. `¬ a < b`). -/
def jsGe (a b : String) : Bool := !(jsLt a b)

/-- Lower-casing of a single character as JS `toLowerCase` acts on the
ASCII letters and the Latin-1 uppercase range (covers the accented
Portuguese letters appearing in the required keywords). -/
def lowerChar (c : Char) : Char :=
  let n := c.toNat
  if 65 ≤ n ∧ n ≤ 90 then Char.ofNat (n + 32)
  else if 192 ≤ n ∧ n ≤ 222 ∧ n ≠ 215 then Char.ofNat (n + 32)
  else c

/-- JS `String.prototype.toLowerCase` on the character inventory used by the
service. -/
def toLowerCase (s : String) : String := ⟨s.data.map lowerChar⟩

/-- Predicate: `startsWithL needle hay`: `needle` is a prefix of `hay`. -/
def startsWithL : List Char → List Char → Bool
  | [], _ => true
  | _ :: _, [] => false
  | a :: as, b :: bs => decide (a = b) && startsWithL as bs

/-- Predicate: `infixOfL needle hay`: `needle` occurs contiguously inside `hay`. -/
def infixOfL (needle : List Char) : List Char → Bool
  | [] => needle.isEmpty
  | b :: bs => startsWithL needle (b :: bs) || infixOfL needle bs

/-- JS `s.includes(sub)`. -/
def containsSub (s sub : String) : Bool := infixOfL sub.data s.data

/-! ## Data model (`sorveteriaTypes.ts`) -/

/-- Day-of-week keys of the weekly-hours table. -/
inductive DiaSemana where
  | domingo | segunda | terca | quarta | quinta | sexta | sabado
  deriving DecidableEq

/-- One day's operating hours (`HorarioSemana` record entries). -/
structure HorarioDia where
  abertura : String
  fechamento : String
  fechado : Bool
  deriving DecidableEq

/-- Weekly hours table with the 7 fixed day keys. -/
structure HorarioSemana where
  segunda : HorarioDia
  terca : HorarioDia
  quarta : HorarioDia
  quinta : HorarioDia
  sexta : HorarioDia
  sabado : HorarioDia
  domingo : HorarioDia
  deriving DecidableEq

/-- Special operating hours for a specific date (`HorarioEspecial`).
`abertura`/`fechamento` are `string | null` in the source. -/
structure HorarioEspecial where
  data : String
  descricao : String
  abertura : Option String
  fechamento : Option String
  fechado : Bool
  deriving DecidableEq

/-- Photo categories (`FOTO_CATEGORIES`). -/
inductive FotoCategoria where
  | balcao | atendimento | externo | geral
  deriving DecidableEq

/-- Environment photo (`FotoAmbiente`). -/
structure FotoAmbiente where
  id : Nat
  url : String
  descricao : Option String
  categoria : FotoCategoria
  ordem : Nat
  deriving DecidableEq

/-- Moderation status (`STATUS_MODERACAO`). -/
inductive StatusModeracao where
  | pendente | aprovado | rejeitado
  deriving DecidableEq

/-- Customer testimonial (`Depoimento`). -/
structure Depoimento where
  id : Nat
  nomeCliente : String
  texto : String
  avaliacao : Nat
  statusModeracao : StatusModeracao
  dataCriacao : String
  deriving DecidableEq

/-- Promotion types (`TIPO_PROMOCAO`). -/
inductive TipoPromocao where
  | desconto | combo | brinde | especial
  deriving DecidableEq

/-- Promotion (`Promocao`). -/
structure Promocao where
  id : Nat
  titulo : String
  descricao : String
  dataValidade : String
  prioridade : Nat
  tipo : TipoPromocao
  ativa : Bool
  deriving DecidableEq

/-- Operating status values (`'aberto' | 'fechado' | 'abrindo_em_breve'`). -/
inductive Status where
  | aberto | fechado | abrindoEmBreve
  deriving DecidableEq

/-- The singleton profile entity (`SorveteriaEntity`).  The average rating
computed through `parseFloat((x).toFixed(1))` is modelled as an exact
rational with one decimal place. -/
structure SorveteriaEntity where
  id : Nat
  nomeSorveteria : String
  logotipo : String
  slogan : Option String
  historiaSorveteria : String
  anoFundacao : Nat
  diferenciais : List String
  fundadores : String
  horariosSemana : HorarioSemana
  horariosEspeciais : List HorarioEspecial
  statusFuncionamento : Status
  fotosAmbiente : List FotoAmbiente
  depoimentos : List Depoimento
  avaliacaoMedia : Option ℚ
  totalAvaliacoes : Nat
  promocoesAtivas : List Promocao
  missao : Option String
  visao : Option String
  valores : List String
  dateCreated : String
  dateModified : String
  deriving DecidableEq

/-- The store's private fields: the optional singleton record and the three
monotone id counters. -/
structure StoreState where
  sorveteria : Option SorveteriaEntity
  fotosCounter : Nat
  depoimentosCounter : Nat
  promocoesCounter : Nat
  deriving DecidableEq

/-- Fresh store (`new SorveteriaStore()` / after `clear()`). -/
def initialState : StoreState :=
  { sorveteria := none, fotosCounter := 0, depoimentosCounter := 0, promocoesCounter := 0 }

/-! ## Constants (`sorveteriaDefaults.ts`) -/

def SORVETERIA_LIMITS.MAX_FOTOS_AMBIENTE : Nat := 12
def SORVETERIA_LIMITS.MAX_PROMOCOES : Nat := 3

/-! ## Input payloads (post-`safeParse` data shapes)

`Option (Option String)` models a zod field that is both `.optional()`
(outer `Option`: key may be absent / `undefined`) and `.nullable()`
(inner `Option`: value may be `null`). -/

/-- Validated `createSchema` payload. -/
structure CreateInput where
  nomeSorveteria : String
  logotipo : String
  slogan : Option (Option String)
  historiaSorveteria : String
  anoFundacao : Nat
  diferenciais : List String
  fundadores : String
  horariosSemana : HorarioSemana
  horariosEspeciais : Option (List HorarioEspecial)
  missao : Option (Option String)
  visao : Option (Option String)
  valores : Option (List String)
  deriving DecidableEq

/-- Validated `updateSchema` payload (all fields optional). -/
structure UpdateInput where
  nomeSorveteria : Option String
  logotipo : Option String
  slogan : Option (Option String)
  historiaSorveteria : Option String
  anoFundacao : Option Nat
  diferenciais : Option (List String)
  fundadores : Option String
  horariosSemana : Option HorarioSemana
  horariosEspeciais : Option (List HorarioEspecial)
  missao : Option (Option String)
  visao : Option (Option String)
  valores : Option (List String)
  deriving DecidableEq

/-- Validated `fotoCreateSchema` payload. -/
structure FotoCreateInput where
  url : String
  descricao : Option (Option String)
  categoria : FotoCategoria
  deriving DecidableEq

/-- Validated `depoimentoCreateSchema` payload. -/
structure DepoimentoCreateInput where
  nomeCliente : String
  texto : String
  avaliacao : Nat
  deriving DecidableEq

/-- Validated `promocaoCreateSchema` payload. -/
structure PromocaoCreateInput where
  titulo : String
  descricao : String
  dataValidade : String
  prioridade : Nat
  tipo : TipoPromocao
  deriving DecidableEq

/-- Field set accepted by `SorveteriaStore.set`
(`Omit<SorveteriaEntity, 'id' | 'dateCreated' | 'dateModified'>`). -/
structure SetData where
  nomeSorveteria : String
  logotipo : String
  slogan : Option String
  historiaSorveteria : String
  anoFundacao : Nat
  diferenciais : List String
  fundadores : String
  horariosSemana : HorarioSemana
  horariosEspeciais : List HorarioEspecial
  statusFuncionamento : Status
  fotosAmbiente : List FotoAmbiente
  depoimentos : List Depoimento
  avaliacaoMedia : Option ℚ
  totalAvaliacoes : Nat
  promocoesAtivas : List Promocao
  missao : Option String
  visao : Option String
  valores : List String
  deriving DecidableEq

/-! ## Wall clock

`updateStatusFuncionamento` reads `new Date()` and derives the day-of-week
name, the zero-padded `HH:MM` current time, and the `YYYY-MM-DD` current
date; these three deriveds are the explicit time context here. -/

/-- Time context derived from the wall clock inside
`updateStatusFuncionamento`. -/
structure TimeCtx where
  diaSemana : DiaSemana
  horaAtual : String
  dataAtual : String
  deriving DecidableEq

/-- Lookup `horariosSemana[diaSemana]`. -/
def lookupDia (h : HorarioSemana) : DiaSemana → HorarioDia
  | .domingo => h.domingo
  | .segunda => h.segunda
  | .terca => h.terca
  | .quarta => h.quarta
  | .quinta => h.quinta
  | .sexta => h.sexta
  | .sabado => h.sabado

/-! ## Store operations (`SorveteriaStore`, `instances/index.ts`)

Each method becomes a function from the store state (plus the wall-clock
strings the method reads) to the new store state and the method's return
value. -/

namespace SorveteriaStore

/-- Method `get()`. -/
def get (st : StoreState) : Option SorveteriaEntity := st.sorveteria

/-- Method `set(data)`: create with id 1 and both timestamps `now`, or overwrite
all supplied fields keeping `id`/`dateCreated`. -/
def set (st : StoreState) (now : String) (d : SetData) : StoreState × SorveteriaEntity :=
  match st.sorveteria with
  | none =>
    let e : SorveteriaEntity :=
      { id := 1
        nomeSorveteria := d.nomeSorveteria, logotipo := d.logotipo, slogan := d.slogan
        historiaSorveteria := d.historiaSorveteria, anoFundacao := d.anoFundacao
        diferenciais := d.diferenciais, fundadores := d.fundadores
        horariosSemana := d.horariosSemana, horariosEspeciais := d.horariosEspeciais
        statusFuncionamento := d.statusFuncionamento, fotosAmbiente := d.fotosAmbiente
        depoimentos := d.depoimentos, avaliacaoMedia := d.avaliacaoMedia
        totalAvaliacoes := d.totalAvaliacoes, promocoesAtivas := d.promocoesAtivas
        missao := d.missao, visao := d.visao, valores := d.valores
        dateCreated := now, dateModified := now }
    ({ st with sorveteria := some e }, e)
  | some old =>
    let e : SorveteriaEntity :=
      { old with
        nomeSorveteria := d.nomeSorveteria, logotipo := d.logotipo, slogan := d.slogan
        historiaSorveteria := d.historiaSorveteria, anoFundacao := d.anoFundacao
        diferenciais := d.diferenciais, fundadores := d.fundadores
        horariosSemana := d.horariosSemana, horariosEspeciais := d.horariosEspeciais
        statusFuncionamento := d.statusFuncionamento, fotosAmbiente := d.fotosAmbiente
        depoimentos := d.depoimentos, avaliacaoMedia := d.avaliacaoMedia
        totalAvaliacoes := d.totalAvaliacoes, promocoesAtivas := d.promocoesAtivas
        missao := d.missao, visao := d.visao, valores := d.valores
        dateModified := now }
    ({ st with sorveteria := some e }, e)

/-- Merge of the provided fields of an `updateSchema` payload over the
existing entity (the object spread `{ ...this.sorveteria, ...data }`). -/
def mergeUpdate (e : SorveteriaEntity) (u : UpdateInput) : SorveteriaEntity :=
  { e with
    nomeSorveteria := u.nomeSorveteria.getD e.nomeSorveteria
    logotipo := u.logotipo.getD e.logotipo
    slogan := u.slogan.getD e.slogan
    historiaSorveteria := u.historiaSorveteria.getD e.historiaSorveteria
    anoFundacao := u.anoFundacao.getD e.anoFundacao
    diferenciais := u.diferenciais.getD e.diferenciais
    fundadores := u.fundadores.getD e.fundadores
    horariosSemana := u.horariosSemana.getD e.horariosSemana
    horariosEspeciais := u.horariosEspeciais.getD e.horariosEspeciais
    missao := u.missao.getD e.missao
    visao := u.visao.getD e.visao
    valores := u.valores.getD e.valores }

/-- Method `update(data)`: partial merge, refreshes `dateModified`. -/
def update (st : StoreState) (now : String) (u : UpdateInput) :
    StoreState × Option SorveteriaEntity :=
  match st.sorveteria with
  | none => (st, none)
  | some e =>
    let e' := { mergeUpdate e u with dateModified := now }
    ({ st with sorveteria := some e' }, some e')

/-- Method `addFoto(foto)`: allocate next id, `ordem := length + 1`, append,
refresh `dateModified`. -/
def addFoto (st : StoreState) (now : String) (url : String) (descricao : Option String)
    (categoria : FotoCategoria) : StoreState × Option FotoAmbiente :=
  match st.sorveteria with
  | none => (st, none)
  | some e =>
    let newId := st.fotosCounter + 1
    let newFoto : FotoAmbiente :=
      { id := newId, url := url, descricao := descricao, categoria := categoria
        ordem := e.fotosAmbiente.length + 1 }
    let e' := { e with fotosAmbiente := e.fotosAmbiente ++ [newFoto], dateModified := now }
    ({ st with sorveteria := some e', fotosCounter := newId }, some newFoto)

/-- Remove the first list element with the given photo id
(`findIndex` + `splice(index, 1)`). -/
def removeFirstFoto (fotoId : Nat) : List FotoAmbiente → List FotoAmbiente
  | [] => []
  | f :: fs => if f.id = fotoId then fs else f :: removeFirstFoto fotoId fs

/-- Method `removeFoto(fotoId)`: delete by id (first match), refresh
`dateModified`; `false` when absent or no record. -/
def removeFoto (st : StoreState) (now : String) (fotoId : Nat) : StoreState × Bool :=
  match st.sorveteria with
  | none => (st, false)
  | some e =>
    if e.fotosAmbiente.any (fun f => decide (f.id = fotoId)) then
      let e' := { e with fotosAmbiente := removeFirstFoto fotoId e.fotosAmbiente
                         dateModified := now }
      ({ st with sorveteria := some e' }, true)
    else
      (st, false)

/-- Numerator (in tenths) of `(soma / len).toFixed(1)` for nonnegative
integer inputs: `toFixed(1)` rounds to the nearest tenth with ties going
to the larger value, i.e. `⌊10·soma∕len + 1∕2⌋ = (20·soma + len) / (2·len)`
in integer division. -/
def roundTenths (soma len : Nat) : Nat := (20 * soma + len) / (2 * len)

/-- The `aprovados` filter of `recalcularAvaliacaoMedia`: testimonials
whose moderation status is `aprovado`. -/
def aprovadosOf (l : List Depoimento) : List Depoimento :=
  l.filter (fun d => decide (d.statusModeracao = .aprovado))

/-- Method `recalcularAvaliacaoMedia()`: average over approved testimonials,
`null`/0 when none approved.  The stored average
`parseFloat((soma / aprovados.length).toFixed(1))` is the exact rational
with one decimal place `roundTenths soma len / 10`. -/
def recalcularAvaliacaoMedia (e : SorveteriaEntity) : SorveteriaEntity :=
  let aprovados := aprovadosOf e.depoimentos
  if aprovados.length = 0 then
    { e with avaliacaoMedia := none, totalAvaliacoes := 0 }
  else
    let soma : Nat := aprovados.foldl (fun acc d => acc + d.avaliacao) 0
    { e with
      avaliacaoMedia := some (mkRat (roundTenths soma aprovados.length) 10)
      totalAvaliacoes := aprovados.length }

/-- Method `addDepoimento(depoimento)`: allocate next id, status starts
`pendente`, append, recompute the average.  Note: unlike the other
mutators, `dateModified` is not refreshed; `now` is used only for the new
testimonial's `dataCriacao`. -/
def addDepoimento (st : StoreState) (now : String) (d : DepoimentoCreateInput) :
    StoreState × Option Depoimento :=
  match st.sorveteria with
  | none => (st, none)
  | some e =>
    let newId := st.depoimentosCounter + 1
    let newDep : Depoimento :=
      { id := newId, nomeCliente := d.nomeCliente, texto := d.texto
        avaliacao := d.avaliacao, statusModeracao := .pendente, dataCriacao := now }
    let e' := recalcularAvaliacaoMedia { e with depoimentos := e.depoimentos ++ [newDep] }
    ({ st with sorveteria := some e', depoimentosCounter := newId }, some newDep)

/-- In-place mutation of the first testimonial with the given id
(`find` returns a reference which is then assigned). -/
def setStatusFirst (depoimentoId : Nat) (status : StatusModeracao) :
    List Depoimento → List Depoimento
  | [] => []
  | d :: ds =>
    if d.id = depoimentoId then { d with statusModeracao := status } :: ds
    else d :: setStatusFirst depoimentoId status ds

/-- Method `updateDepoimentoStatus(depoimentoId, status)`: set the status of the
first matching testimonial and recompute the average; `dateModified` is
not refreshed. -/
def updateDepoimentoStatus (st : StoreState) (depoimentoId : Nat)
    (status : StatusModeracao) : StoreState × Option Depoimento :=
  match st.sorveteria with
  | none => (st, none)
  | some e =>
    match e.depoimentos.find? (fun d => decide (d.id = depoimentoId)) with
    | none => (st, none)
    | some dep =>
      let e' := recalcularAvaliacaoMedia
        { e with depoimentos := setStatusFirst depoimentoId status e.depoimentos }
      ({ st with sorveteria := some e' }, some { dep with statusModeracao := status })

/-- Method `addPromocao(promocao)`: allocate next id, `ativa := true`, append,
refresh `dateModified`. -/
def addPromocao (st : StoreState) (now : String) (p : PromocaoCreateInput) :
    StoreState × Option Promocao :=
  match st.sorveteria with
  | none => (st, none)
  | some e =>
    let newId := st.promocoesCounter + 1
    let newPromocao : Promocao :=
      { id := newId, titulo := p.titulo, descricao := p.descricao
        dataValidade := p.dataValidade, prioridade := p.prioridade, tipo := p.tipo
        ativa := true }
    let e' := { e with promocoesAtivas := e.promocoesAtivas ++ [newPromocao]
                       dateModified := now }
    ({ st with sorveteria := some e', promocoesCounter := newId }, some newPromocao)

/-- Method `removePromocoesVencidas()`: retain promotions with
`dataValidade >= hoje` (JS string comparison), return the removed count,
refresh `dateModified` only when something was removed.  `hoje` is the
`YYYY-MM-DD` part of the current instant and `now` its ISO string. -/
def removePromocoesVencidas (st : StoreState) (now hoje : String) : StoreState × Nat :=
  match st.sorveteria with
  | none => (st, 0)
  | some e =>
    let antes := e.promocoesAtivas.length
    let kept := e.promocoesAtivas.filter (fun p => jsGe p.dataValidade hoje)
    let removidas := antes - kept.length
    if removidas > 0 then
      ({ st with sorveteria := some { e with promocoesAtivas := kept, dateModified := now } },
       removidas)
    else
      ({ st with sorveteria := some { e with promocoesAtivas := kept } }, removidas)

/-- The weekly-hours tail of `updateStatusFuncionamento` (lines after the
special-hours block, reached when no special entry decides the status). -/
def statusFromRegular (e : SorveteriaEntity) (t : TimeCtx) : Status :=
  let horarioDia := lookupDia e.horariosSemana t.diaSemana
  if horarioDia.fechado then .fechado
  else if jsGe t.horaAtual horarioDia.abertura && jsLt t.horaAtual horarioDia.fechamento then
    .aberto
  else .fechado

/-- Method `updateStatusFuncionamento()`: special-hours entry for today decides
the status when its closed flag is set or both times are present;
otherwise control falls through to the weekly-hours table. -/
def updateStatusFuncionamento (st : StoreState) (t : TimeCtx) : StoreState :=
  match st.sorveteria with
  | none => st
  | some e =>
    let status :=
      match e.horariosEspeciais.find? (fun h => decide (h.data = t.dataAtual)) with
      | some horarioEspecial =>
        if horarioEspecial.fechado then Status.fechado
        else
          match horarioEspecial.abertura, horarioEspecial.fechamento with
          | some ab, some fe =>
            if jsGe t.horaAtual ab && jsLt t.horaAtual fe then Status.aberto
            else Status.fechado
          | _, _ => statusFromRegular e t
      | none => statusFromRegular e t
    { st with sorveteria := some { e with statusFuncionamento := status } }

end SorveteriaStore

deriving instance DecidableEq for Except

/-! ## Validation regexes (`sorveteriaValidation.ts`) -/

/-- Predicate: `c` is an ASCII digit (code points 48–57, the regex class `[0-9]`). -/
def isDigitC (c : Char) : Bool := decide (48 ≤ c.toNat) && decide (c.toNat ≤ 57)

/-- Numeric value of an ASCII digit. -/
def digitVal (c : Char) : Nat := c.toNat - 48

/-- Full-match semantics of the time regex
`/^([0-1]?[0-9]|2[0-3]):[0-5][0-9]$/` used by `horarioDiaSchema` and
`horarioEspecialSchema`: the hour is one digit, or two digits `00`–`19`,
or `20`–`23`; the minute is always two digits `00`–`59`.  Character
classes are code-point ranges (`'0'` = 48, `':'` = 58). -/
def timeRegexMatches (s : String) : Bool :=
  match s.data with
  | [h1, h2, c, m1, m2] =>
    decide (c.toNat = 58)
      && ((decide (48 ≤ h1.toNat) && decide (h1.toNat ≤ 49)) && isDigitC h2
            || decide (h1.toNat = 50) && decide (48 ≤ h2.toNat) && decide (h2.toNat ≤ 51))
      && (decide (48 ≤ m1.toNat) && decide (m1.toNat ≤ 53)) && isDigitC m2
  | [h, c, m1, m2] =>
    decide (c.toNat = 58) && isDigitC h
      && (decide (48 ≤ m1.toNat) && decide (m1.toNat ≤ 53)) && isDigitC m2
  | _ => false

/-- Structural acceptance of one weekly-hours entry by `horarioDiaSchema`
(both time strings must match the time regex; `fechado` is any boolean). -/
def horarioDiaSchemaOk (h : HorarioDia) : Bool :=
  timeRegexMatches h.abertura && timeRegexMatches h.fechamento

/-- Acceptance of the full weekly table by `horariosSemanaSchema`. -/
def horariosSemanaSchemaOk (h : HorarioSemana) : Bool :=
  horarioDiaSchemaOk h.segunda && horarioDiaSchemaOk h.terca && horarioDiaSchemaOk h.quarta
    && horarioDiaSchemaOk h.quinta && horarioDiaSchemaOk h.sexta
    && horarioDiaSchemaOk h.sabado && horarioDiaSchemaOk h.domingo

/-- Clock value (minutes since midnight) of a string matched by the time
regex, in either its one-digit-hour or two-digit-hour shape. -/
def timeVal (s : String) : Option Nat :=
  match s.data with
  | [h1, h2, c, m1, m2] =>
    if c.toNat = 58 ∧ isDigitC h1 = true ∧ isDigitC h2 = true
        ∧ isDigitC m1 = true ∧ isDigitC m2 = true then
      some ((10 * digitVal h1 + digitVal h2) * 60 + (10 * digitVal m1 + digitVal m2))
    else none
  | [h, c, m1, m2] =>
    if c.toNat = 58 ∧ isDigitC h = true ∧ isDigitC m1 = true ∧ isDigitC m2 = true then
      some (digitVal h * 60 + (10 * digitVal m1 + digitVal m2))
    else none
  | _ => none

/-- Spec-side notion from the claim's wording: a zero-padded fixed-width
`HH:MM` string whose hour value is 00–23 and minute value 00–59. -/
def isPaddedHHMM (s : String) : Bool :=
  match s.data with
  | [h1, h2, c, m1, m2] =>
    decide (c.toNat = 58) && isDigitC h1 && isDigitC h2 && isDigitC m1 && isDigitC m2
      && decide (10 * digitVal h1 + digitVal h2 ≤ 23)
      && decide (10 * digitVal m1 + digitVal m2 ≤ 59)
  | _ => false

/-- The one-digit-hour shape `H:MM` also admitted by the regex. -/
def isShortHMM (s : String) : Bool :=
  match s.data with
  | [h, c, m1, m2] =>
    decide (c.toNat = 58) && isDigitC h && isDigitC m1 && isDigitC m2
      && decide (10 * digitVal m1 + digitVal m2 ≤ 59)
  | _ => false

/-! ## Service errors -/

/-- Error categories of `ServiceError` as raised by the sorveteria
service. -/
inductive ErrorCode where
  | notFound | validationFailed | limitExceeded | priorityConflict
  deriving DecidableEq

/-- A thrown `ServiceError` (code and message; the HTTP status is a
function of the code and is omitted). -/
structure ServiceErr where
  code : ErrorCode
  message : String
  deriving DecidableEq

/-- Outcome of a service call: the store state it leaves behind, paired
with the returned value or the thrown error. -/
abbrev SvcResult (α : Type) := StoreState × Except ServiceErr α

/-! ## Domain service (`sorveteriaService.ts`)

The zod `safeParse` stage is modelled by taking the already-typed payload
shapes; the content rules and store interaction below start at the point
where `validation.data` is in hand. -/

/-- JS `params.x || null` on an optional nullable string: `undefined` and
`null` give `null`, and the empty string (falsy) also gives `null`. -/
def orNull (x : Option (Option String)) : Option String :=
  match x with
  | some (some s) => if s.data.isEmpty then none else some s
  | _ => none

/-- Required history keywords (`requiredElements`). -/
def requiredElements : List String := ["origem", "tradição", "qualidade"]

/-- Required differentiator keywords (`requiredDiferenciais`). -/
def requiredDiferenciais : List String := ["qualidade", "tradição", "atendimento"]

/-- The history keywords missing from the lowercased history text. -/
def missingElementsOf (historia : String) : List String :=
  requiredElements.filter (fun el => !(containsSub (toLowerCase historia) el))

/-- The differentiator keywords not covered by any lowercased
differentiator. -/
def missingDiferenciaisOf (diferenciais : List String) : List String :=
  requiredDiferenciais.filter
    (fun req => !((diferenciais.map toLowerCase).any (fun d => containsSub d req)))

/-- Service `sorveteriaCreateOrUpdate`: content keyword checks, then full store
`set` (with status forced to `fechado` and empty sub-lists), then status
recompute.  The returned entity is the stored one after the recompute (the
JS return value aliases the store record). -/
def sorveteriaCreateOrUpdate (st : StoreState) (now : String) (t : TimeCtx)
    (params : CreateInput) : SvcResult SorveteriaEntity :=
  let missingElements := missingElementsOf params.historiaSorveteria
  if missingElements.length > 0 then
    (st, .error ⟨.validationFailed,
      "História deve incluir: " ++ String.intercalate ", " missingElements⟩)
  else
    let missingDiferenciais := missingDiferenciaisOf params.diferenciais
    if missingDiferenciais.length > 0 then
      (st, .error ⟨.validationFailed,
        "Diferenciais devem incluir: " ++ String.intercalate ", " missingDiferenciais⟩)
    else
      let (st1, e1) := SorveteriaStore.set st now
        { nomeSorveteria := params.nomeSorveteria
          logotipo := params.logotipo
          slogan := orNull params.slogan
          historiaSorveteria := params.historiaSorveteria
          anoFundacao := params.anoFundacao
          diferenciais := params.diferenciais
          fundadores := params.fundadores
          horariosSemana := params.horariosSemana
          horariosEspeciais := params.horariosEspeciais.getD []
          statusFuncionamento := .fechado
          fotosAmbiente := []
          depoimentos := []
          avaliacaoMedia := none
          totalAvaliacoes := 0
          promocoesAtivas := []
          missao := orNull params.missao
          visao := orNull params.visao
          valores := params.valores.getD [] }
      let st2 := SorveteriaStore.updateStatusFuncionamento st1 t
      (st2, .ok (st2.sorveteria.getD e1))

/-- Service `sorveteriaUpdate`: NOT_FOUND when no record, else partial merge and
status recompute. -/
def sorveteriaUpdate (st : StoreState) (now : String) (t : TimeCtx) (u : UpdateInput) :
    SvcResult SorveteriaEntity :=
  match SorveteriaStore.get st with
  | none => (st, .error ⟨.notFound, "Sorveteria not found"⟩)
  | some _ =>
    match SorveteriaStore.update st now u with
    | (st1, none) => (st1, .error ⟨.notFound, "Sorveteria not found"⟩)
    | (st1, some e1) =>
      let st2 := SorveteriaStore.updateStatusFuncionamento st1 t
      (st2, .ok (st2.sorveteria.getD e1))

/-- Service `sorveteriaAddFoto`: NOT_FOUND when no record, LIMIT_EXCEEDED when the
photo list is at capacity, else append through the store. -/
def sorveteriaAddFoto (st : StoreState) (now : String) (f : FotoCreateInput) :
    SvcResult FotoAmbiente :=
  match SorveteriaStore.get st with
  | none => (st, .error ⟨.notFound, "Sorveteria not found"⟩)
  | some e =>
    if e.fotosAmbiente.length ≥ SORVETERIA_LIMITS.MAX_FOTOS_AMBIENTE then
      (st, .error ⟨.limitExceeded, "Maximum of 12 photos allowed"⟩)
    else
      match SorveteriaStore.addFoto st now f.url (f.descricao.getD none) f.categoria with
      | (st1, some foto) => (st1, .ok foto)
      | (st1, none) => (st1, .error ⟨.notFound, "Sorveteria not found"⟩)

/-- Service `sorveteriaRemoveFoto`: NOT_FOUND when the id is absent. -/
def sorveteriaRemoveFoto (st : StoreState) (now : String) (id : Nat) :
    SvcResult Unit :=
  match SorveteriaStore.removeFoto st now id with
  | (st1, true) => (st1, .ok ())
  | (st1, false) => (st1, .error ⟨.notFound, "Photo not found"⟩)

/-- Service `sorveteriaAddDepoimento`: NOT_FOUND when no record. -/
def sorveteriaAddDepoimento (st : StoreState) (now : String) (d : DepoimentoCreateInput) :
    SvcResult Depoimento :=
  match SorveteriaStore.addDepoimento st now d with
  | (st1, some dep) => (st1, .ok dep)
  | (st1, none) => (st1, .error ⟨.notFound, "Sorveteria not found"⟩)

/-- Service `sorveteriaUpdateDepoimentoStatus`: NOT_FOUND when the testimonial is
absent. -/
def sorveteriaUpdateDepoimentoStatus (st : StoreState) (id : Nat)
    (status : StatusModeracao) : SvcResult Depoimento :=
  match SorveteriaStore.updateDepoimentoStatus st id status with
  | (st1, some dep) => (st1, .ok dep)
  | (st1, none) => (st1, .error ⟨.notFound, "Testimonial not found"⟩)

/-- Service `sorveteriaAddPromocao`: NOT_FOUND, then LIMIT_EXCEEDED when 3 or more
are active, then PRIORITY_CONFLICT when priority 1 is requested while an
active priority-1 promotion exists, else append through the store. -/
def sorveteriaAddPromocao (st : StoreState) (now : String) (p : PromocaoCreateInput) :
    SvcResult Promocao :=
  match SorveteriaStore.get st with
  | none => (st, .error ⟨.notFound, "Sorveteria not found"⟩)
  | some e =>
    if e.promocoesAtivas.length ≥ SORVETERIA_LIMITS.MAX_PROMOCOES then
      (st, .error ⟨.limitExceeded, "Maximum of 3 active promotions allowed"⟩)
    else if decide (p.prioridade = 1)
        && e.promocoesAtivas.any (fun q => decide (q.prioridade = 1)) then
      (st, .error ⟨.priorityConflict, "Only one promotion can have priority 1"⟩)
    else
      match SorveteriaStore.addPromocao st now p with
      | (st1, some promo) => (st1, .ok promo)
      | (st1, none) => (st1, .error ⟨.notFound, "Sorveteria not found"⟩)

/-- Service `sorveteriaRemovePromocoesVencidas`: always succeeds with the removed
count. -/
def sorveteriaRemovePromocoesVencidas (st : StoreState) (now hoje : String) :
    StoreState × Nat :=
  SorveteriaStore.removePromocoesVencidas st now hoje

/-- Service `sorveteriaUpdateStatus`: recompute, then report the current status
(`'unknown'` is impossible to observe here since the recompute leaves an
absent record absent and the caller maps that to a fallback string). -/
def sorveteriaUpdateStatus (st : StoreState) (t : TimeCtx) : StoreState × Option Status :=
  let st1 := SorveteriaStore.updateStatusFuncionamento st t
  (st1, (SorveteriaStore.get st1).map (·.statusFuncionamento))

/-! ## Public operations and reachability -/

/-- One invocation of a mutating public operation, with the wall-clock
data it reads. -/
inductive Op where
  | createOrUpdate (now : String) (t : TimeCtx) (p : CreateInput)
  | update (now : String) (t : TimeCtx) (u : UpdateInput)
  | addFoto (now : String) (f : FotoCreateInput)
  | removeFoto (now : String) (id : Nat)
  | addDepoimento (now : String) (d : DepoimentoCreateInput)
  | updateDepoimentoStatus (id : Nat) (status : StatusModeracao)
  | addPromocao (now : String) (p : PromocaoCreateInput)
  | removePromocoesVencidas (now hoje : String)
  | updateStatus (t : TimeCtx)

/-- The store state a public operation leaves behind (on a thrown error
the service has not touched the store, and the embedding returns the
pre-state). -/
def applyOp (st : StoreState) : Op → StoreState
  | .createOrUpdate now t p => (sorveteriaCreateOrUpdate st now t p).1
  | .update now t u => (sorveteriaUpdate st now t u).1
  | .addFoto now f => (sorveteriaAddFoto st now f).1
  | .removeFoto now id => (sorveteriaRemoveFoto st now id).1
  | .addDepoimento now d => (sorveteriaAddDepoimento st now d).1
  | .updateDepoimentoStatus id status => (sorveteriaUpdateDepoimentoStatus st id status).1
  | .addPromocao now p => (sorveteriaAddPromocao st now p).1
  | .removePromocoesVencidas now hoje => (sorveteriaRemovePromocoesVencidas st now hoje).1
  | .updateStatus t => (sorveteriaUpdateStatus st t).1

/-- States reachable from the fresh store through the public operations. -/
inductive Reachable : StoreState → Prop where
  | init : Reachable initialState
  | step {st : StoreState} (op : Op) : Reachable st → Reachable (applyOp st op)

/-! ## Specification-side definitions -/

/-- Round-to-one-decimal with ties upward, as a formula on exact
rationals: the spec's "round-to-one-decimal of (sum / count)". -/
def roundTo1 (q : ℚ) : ℚ := (⌊q * 10 + 1 / 2⌋ : ℚ) / 10

/-! ## General lemmas about the primitives -/

theorem roundTenths_eq_roundTo1 (s l : Nat) (hl : 0 < l) :
    (mkRat (SorveteriaStore.roundTenths s l) 10 : ℚ) = roundTo1 ((s : ℚ) / (l : ℚ)) := by
  have hl0 : (l : ℚ) ≠ 0 := Nat.cast_ne_zero.mpr hl.ne'
  have harg : (s : ℚ) / (l : ℚ) * 10 + 1 / 2
      = (((20 * s + l : ℕ) : ℤ) : ℚ) / ((2 * l : ℕ) : ℚ) := by
    push_cast
    field_simp
    ring
  have hfloor : ⌊(s : ℚ) / (l : ℚ) * 10 + 1 / 2⌋
      = ((20 * s + l : ℕ) : ℤ) / ((2 * l : ℕ) : ℤ) := by
    rw [harg]
    exact Rat.floor_intCast_div_natCast _ _
  have hdiv : (((20 * s + l) / (2 * l) : ℕ) : ℤ)
      = ((20 * s + l : ℕ) : ℤ) / ((2 * l : ℕ) : ℤ) := Int.ofNat_div _ _
  rw [roundTo1, hfloor, ← hdiv, Rat.mkRat_eq_div, SorveteriaStore.roundTenths]
  push_cast
  norm_num

theorem lexLt_irrefl (l : List Char) : lexLt l l = false := by
  induction l with
  | nil => rfl
  | cons a as ih => simp [lexLt, ih]

/-- JS `a >= a` on strings. -/
theorem jsGe_refl (s : String) : jsGe s s = true := by
  simp [jsGe, jsLt, lexLt_irrefl]

theorem foldl_add_avaliacao (l : List Depoimento) (n : Nat) :
    l.foldl (fun acc d => acc + d.avaliacao) n = n + (l.map (·.avaliacao)).sum := by
  induction l generalizing n with
  | nil => simp
  | cons d ds ih => simp [List.foldl_cons, ih, Nat.add_assoc]

/-- The entity fields other than the testimonial list, the average rating
and the rating count. -/
def outrosCampos (e : SorveteriaEntity) :=
  (e.id, e.nomeSorveteria, e.logotipo, e.slogan, e.historiaSorveteria, e.anoFundacao,
   e.diferenciais, e.fundadores, e.horariosSemana, e.horariosEspeciais,
   e.statusFuncionamento, e.fotosAmbiente, e.promocoesAtivas, e.missao, e.visao,
   e.valores, e.dateCreated, e.dateModified)

theorem recalc_outrosCampos (e : SorveteriaEntity) :
    outrosCampos (SorveteriaStore.recalcularAvaliacaoMedia e) = outrosCampos e := by
  rw [SorveteriaStore.recalcularAvaliacaoMedia]
  split <;> rfl

theorem recalc_depoimentos (e : SorveteriaEntity) :
    (SorveteriaStore.recalcularAvaliacaoMedia e).depoimentos = e.depoimentos := by
  rw [SorveteriaStore.recalcularAvaliacaoMedia]
  split <;> rfl

theorem recalc_none (e : SorveteriaEntity)
    (h : SorveteriaStore.aprovadosOf e.depoimentos = []) :
    (SorveteriaStore.recalcularAvaliacaoMedia e).avaliacaoMedia = none ∧
      (SorveteriaStore.recalcularAvaliacaoMedia e).totalAvaliacoes = 0 := by
  rw [SorveteriaStore.recalcularAvaliacaoMedia]
  simp [h]

theorem recalc_some (e : SorveteriaEntity)
    (h : SorveteriaStore.aprovadosOf e.depoimentos ≠ []) :
    (SorveteriaStore.recalcularAvaliacaoMedia e).avaliacaoMedia
      = some (roundTo1
          (((((SorveteriaStore.aprovadosOf e.depoimentos).map (·.avaliacao)).sum : ℕ) : ℚ)
            / ((SorveteriaStore.aprovadosOf e.depoimentos).length : ℚ))) ∧
      (SorveteriaStore.recalcularAvaliacaoMedia e).totalAvaliacoes
      = (SorveteriaStore.aprovadosOf e.depoimentos).length := by
  have hlen : (SorveteriaStore.aprovadosOf e.depoimentos).length ≠ 0 := by
    simpa [List.length_eq_zero] using h
  rw [SorveteriaStore.recalcularAvaliacaoMedia]
  simp only [hlen, if_false]
  refine ⟨?_, trivial⟩
  rw [foldl_add_avaliacao]
  rw [Nat.zero_add]
  rw [roundTenths_eq_roundTo1 _ _ (Nat.pos_of_ne_zero hlen)]

theorem removeFirstFoto_length (fotoId : Nat) (l : List FotoAmbiente)
    (h : l.any (fun f => decide (f.id = fotoId)) = true) :
    (SorveteriaStore.removeFirstFoto fotoId l).length + 1 = l.length := by
  induction l with
  | nil => simp at h
  | cons f fs ih =>
    rw [SorveteriaStore.removeFirstFoto]
    by_cases hf : f.id = fotoId
    · simp [hf]
    · have h' : fs.any (fun f => decide (f.id = fotoId)) = true := by
        simpa [List.any_cons, hf] using h
      simp [hf, ih h']

theorem removeFirstFoto_subset (fotoId : Nat) (l : List FotoAmbiente) :
    ∀ f ∈ SorveteriaStore.removeFirstFoto fotoId l, f ∈ l := by
  induction l with
  | nil => simp [SorveteriaStore.removeFirstFoto]
  | cons g gs ih =>
    rw [SorveteriaStore.removeFirstFoto]
    by_cases hg : g.id = fotoId
    · simp only [hg, if_true]
      intro f hf
      exact List.mem_cons_of_mem _ hf
    · simp only [hg, if_false]
      intro f hf
      rcases List.mem_cons.mp hf with h1 | h1
      · exact h1 ▸ List.mem_cons_self _ _
      · exact List.mem_cons_of_mem _ (ih f h1)

theorem setStatusFirst_map_id (depId : Nat) (status : StatusModeracao)
    (l : List Depoimento) :
    (SorveteriaStore.setStatusFirst depId status l).map (·.id) = l.map (·.id) := by
  induction l with
  | nil => rfl
  | cons d ds ih =>
    rw [SorveteriaStore.setStatusFirst]
    by_cases hd : d.id = depId
    · simp [hd]
    · simp [hd, ih]

theorem removeFirstFoto_length_le (fotoId : Nat) (l : List FotoAmbiente) :
    (SorveteriaStore.removeFirstFoto fotoId l).length ≤ l.length := by
  induction l with
  | nil => simp [SorveteriaStore.removeFirstFoto]
  | cons f fs ih =>
    rw [SorveteriaStore.removeFirstFoto]
    by_cases hf : f.id = fotoId
    · rw [if_pos hf]
      simp only [List.length_cons]
      omega
    · rw [if_neg hf]
      simp only [List.length_cons]
      omega

theorem countP_filter_le {α : Type} (p q : α → Bool) (l : List α) :
    (l.filter q).countP p ≤ l.countP p := by
  induction l with
  | nil => simp
  | cons a as ih =>
    rw [List.filter_cons]
    by_cases hq : q a
    · simp only [hq, if_true]
      rw [List.countP_cons, List.countP_cons]
      omega
    · simp only [hq, Bool.false_eq_true, if_false]
      rw [List.countP_cons]
      omega

/-! ## Shape lemmas for the store operations -/

theorem mergeUpdate_fotosAmbiente (e : SorveteriaEntity) (u : UpdateInput) :
    (SorveteriaStore.mergeUpdate e u).fotosAmbiente = e.fotosAmbiente := rfl

theorem mergeUpdate_promocoesAtivas (e : SorveteriaEntity) (u : UpdateInput) :
    (SorveteriaStore.mergeUpdate e u).promocoesAtivas = e.promocoesAtivas := rfl

theorem recalc_fotosAmbiente (e : SorveteriaEntity) :
    (SorveteriaStore.recalcularAvaliacaoMedia e).fotosAmbiente = e.fotosAmbiente := by
  rw [SorveteriaStore.recalcularAvaliacaoMedia]
  split <;> rfl

theorem recalc_promocoesAtivas (e : SorveteriaEntity) :
    (SorveteriaStore.recalcularAvaliacaoMedia e).promocoesAtivas = e.promocoesAtivas := by
  rw [SorveteriaStore.recalcularAvaliacaoMedia]
  split <;> rfl

theorem recalc_dateModified (e : SorveteriaEntity) :
    (SorveteriaStore.recalcularAvaliacaoMedia e).dateModified = e.dateModified := by
  rw [SorveteriaStore.recalcularAvaliacaoMedia]
  split <;> rfl

/-- Fact: `statusFromRegular` only produces `aberto` or `fechado`. -/
theorem statusFromRegular_cases (e : SorveteriaEntity) (t : TimeCtx) :
    SorveteriaStore.statusFromRegular e t = .aberto ∨
      SorveteriaStore.statusFromRegular e t = .fechado := by
  rw [SorveteriaStore.statusFromRegular]
  split_ifs <;> simp

/-- Fact: `updateStatusFuncionamento` on an empty store does nothing. -/
theorem updateStatus_none (st : StoreState) (t : TimeCtx) (h : st.sorveteria = none) :
    SorveteriaStore.updateStatusFuncionamento st t = st := by
  rw [SorveteriaStore.updateStatusFuncionamento, h]

/-- Fact: `updateStatusFuncionamento` on a present record only rewrites the
status field, and the new status is `aberto` or `fechado`. -/
theorem updateStatus_some (st : StoreState) (t : TimeCtx) (e : SorveteriaEntity)
    (h : st.sorveteria = some e) :
    ∃ s, SorveteriaStore.updateStatusFuncionamento st t
        = { st with sorveteria := some { e with statusFuncionamento := s } }
      ∧ (s = Status.aberto ∨ s = Status.fechado) := by
  rw [SorveteriaStore.updateStatusFuncionamento, h]
  refine ⟨_, rfl, ?_⟩
  rcases hf : e.horariosEspeciais.find? (fun h => decide (h.data = t.dataAtual)) with _ | he
  · rw [hf]
    exact statusFromRegular_cases e t
  · rw [hf]
    dsimp only
    split_ifs with hfe
    · simp
    · rcases he with ⟨hdata, hdesc, ab, fe, hfech⟩
      rcases ab with _ | ab <;> rcases fe with _ | fe
      · exact statusFromRegular_cases e t
      · exact statusFromRegular_cases e t
      · exact statusFromRegular_cases e t
      · dsimp only
        split_ifs <;> simp

/-- Fact: `set` stores exactly the supplied field set (over a fresh id-1 record
or the existing one) and returns the stored entity. -/
theorem set_shape (st : StoreState) (now : String) (d : SetData) :
    ∃ e1, SorveteriaStore.set st now d = ({ st with sorveteria := some e1 }, e1)
      ∧ e1.promocoesAtivas = d.promocoesAtivas
      ∧ e1.fotosAmbiente = d.fotosAmbiente
      ∧ e1.depoimentos = d.depoimentos
      ∧ e1.dateModified = now := by
  rw [SorveteriaStore.set]
  rcases hs : st.sorveteria with _ | old
  · exact ⟨_, rfl, rfl, rfl, rfl, rfl⟩
  · exact ⟨_, rfl, rfl, rfl, rfl, rfl⟩

/-! ## The capacity invariant -/

/-- Capacity invariant of the store: at most 3 active promotions, at most
one of them with priority 1, and at most 12 photos. -/
def StoreInv (st : StoreState) : Prop :=
  ∀ e, st.sorveteria = some e →
    e.promocoesAtivas.length ≤ 3 ∧
    e.promocoesAtivas.countP (fun p => decide (p.prioridade = 1)) ≤ 1 ∧
    e.fotosAmbiente.length ≤ 12

theorem inv_initial : StoreInv initialState := by
  intro e he
  simp [initialState] at he

theorem inv_updateStatus (st : StoreState) (t : TimeCtx) (h : StoreInv st) :
    StoreInv (SorveteriaStore.updateStatusFuncionamento st t) := by
  rcases hs : st.sorveteria with _ | e
  · rw [updateStatus_none st t hs]
    exact h
  · obtain ⟨s, heq, _⟩ := updateStatus_some st t e hs
    rw [heq]
    intro e' he'
    cases he'
    exact h e hs

theorem inv_removePromocoes (st : StoreState) (now hoje : String) (h : StoreInv st) :
    StoreInv ((sorveteriaRemovePromocoesVencidas st now hoje).1) := by
  rw [sorveteriaRemovePromocoesVencidas, SorveteriaStore.removePromocoesVencidas]
  rcases hs : st.sorveteria with _ | e
  · exact h
  · obtain ⟨h1, h2, h3⟩ := h e hs
    dsimp only
    split_ifs <;>
    · intro e' he'
      cases he'
      refine ⟨le_trans (List.length_filter_le _ _) h1, ?_, h3⟩
      exact le_trans (countP_filter_le _ _ _) h2

theorem inv_update (st : StoreState) (now : String) (t : TimeCtx) (u : UpdateInput)
    (h : StoreInv st) : StoreInv ((sorveteriaUpdate st now t u).1) := by
  rw [sorveteriaUpdate, SorveteriaStore.get]
  rcases hs : st.sorveteria with _ | e
  · exact h
  · rw [SorveteriaStore.update]
    rw [hs]
    dsimp only
    apply inv_updateStatus
    intro e' he'
    cases he'
    obtain ⟨h1, h2, h3⟩ := h e hs
    rw [mergeUpdate_promocoesAtivas, mergeUpdate_fotosAmbiente]
    exact ⟨h1, h2, h3⟩

theorem inv_addFoto (st : StoreState) (now : String) (f : FotoCreateInput)
    (h : StoreInv st) : StoreInv ((sorveteriaAddFoto st now f).1) := by
  rw [sorveteriaAddFoto, SorveteriaStore.get]
  rcases hs : st.sorveteria with _ | e
  · exact h
  · dsimp only
    split_ifs with hlim
    · exact h
    · rw [SorveteriaStore.addFoto, hs]
      dsimp only
      intro e' he'
      cases he'
      obtain ⟨h1, h2, h3⟩ := h e hs
      refine ⟨h1, h2, ?_⟩
      rw [SORVETERIA_LIMITS.MAX_FOTOS_AMBIENTE] at hlim
      simp only [List.length_append, List.length_cons, List.length_nil]
      omega

theorem inv_removeFoto (st : StoreState) (now : String) (id : Nat)
    (h : StoreInv st) : StoreInv ((sorveteriaRemoveFoto st now id).1) := by
  rw [sorveteriaRemoveFoto]
  rcases hres : SorveteriaStore.removeFoto st now id with ⟨st1, ok⟩
  have : st1 = (SorveteriaStore.removeFoto st now id).1 := by rw [hres]
  subst this
  rw [SorveteriaStore.removeFoto]
  rcases hs : st.sorveteria with _ | e
  · cases ok <;> exact h
  · dsimp only
    split_ifs with hany
    · cases ok <;>
      · intro e' he'
        cases he'
        obtain ⟨h1, h2, h3⟩ := h e hs
        exact ⟨h1, h2, le_trans (removeFirstFoto_length_le _ _) h3⟩
    · cases ok <;> exact h

theorem inv_addDepoimento (st : StoreState) (now : String) (d : DepoimentoCreateInput)
    (h : StoreInv st) : StoreInv ((sorveteriaAddDepoimento st now d).1) := by
  rw [sorveteriaAddDepoimento, SorveteriaStore.addDepoimento]
  rcases hs : st.sorveteria with _ | e
  · exact h
  · dsimp only
    intro e' he'
    cases he'
    obtain ⟨h1, h2, h3⟩ := h e hs
    rw [recalc_promocoesAtivas, recalc_fotosAmbiente]
    exact ⟨h1, h2, h3⟩

theorem inv_updateDepoimentoStatus (st : StoreState) (id : Nat) (status : StatusModeracao)
    (h : StoreInv st) : StoreInv ((sorveteriaUpdateDepoimentoStatus st id status).1) := by
  rw [sorveteriaUpdateDepoimentoStatus, SorveteriaStore.updateDepoimentoStatus]
  rcases hs : st.sorveteria with _ | e
  · exact h
  · dsimp only
    rcases hfind : e.depoimentos.find? (fun d => decide (d.id = id)) with _ | dep
    · rw [hfind]
      exact h
    · rw [hfind]
      dsimp only
      intro e' he'
      cases he'
      obtain ⟨h1, h2, h3⟩ := h e hs
      rw [recalc_promocoesAtivas, recalc_fotosAmbiente]
      exact ⟨h1, h2, h3⟩

theorem inv_addPromocao (st : StoreState) (now : String) (p : PromocaoCreateInput)
    (h : StoreInv st) : StoreInv ((sorveteriaAddPromocao st now p).1) := by
  rw [sorveteriaAddPromocao, SorveteriaStore.get]
  rcases hs : st.sorveteria with _ | e
  · exact h
  · dsimp only
    split_ifs with hlim hconf
    · exact h
    · exact h
    · rw [SorveteriaStore.addPromocao, hs]
      dsimp only
      intro e' he'
      cases he'
      obtain ⟨h1, h2, h3⟩ := h e hs
      rw [SORVETERIA_LIMITS.MAX_PROMOCOES] at hlim
      refine ⟨?_, ?_, h3⟩
      · simp only [List.length_append, List.length_cons, List.length_nil]
        omega
      · rw [List.countP_append]
        by_cases hp : p.prioridade = 1
        · have hnone : e.promocoesAtivas.countP (fun q => decide (q.prioridade = 1)) = 0 := by
            rw [List.countP_eq_zero]
            intro q hq
            simp only [decide_eq_true_eq]
            intro hq1
            apply hconf
            rw [Bool.and_eq_true]
            exact ⟨decide_eq_true hp,
              List.any_eq_true.mpr ⟨q, hq, decide_eq_true hq1⟩⟩
          rw [hnone]
          simp [List.countP_cons, hp]
        · simp [List.countP_cons, hp]
          omega

theorem inv_createOrUpdate (st : StoreState) (now : String) (t : TimeCtx)
    (p : CreateInput) (h : StoreInv st) :
    StoreInv ((sorveteriaCreateOrUpdate st now t p).1) := by
  rw [sorveteriaCreateOrUpdate]
  dsimp only
  split_ifs with h1 h2
  · exact h
  · exact h
  · obtain ⟨e1, hset, hpromo, hfoto, _, _⟩ := set_shape st now
      { nomeSorveteria := p.nomeSorveteria
        logotipo := p.logotipo
        slogan := orNull p.slogan
        historiaSorveteria := p.historiaSorveteria
        anoFundacao := p.anoFundacao
        diferenciais := p.diferenciais
        fundadores := p.fundadores
        horariosSemana := p.horariosSemana
        horariosEspeciais := p.horariosEspeciais.getD []
        statusFuncionamento := .fechado
        fotosAmbiente := []
        depoimentos := []
        avaliacaoMedia := none
        totalAvaliacoes := 0
        promocoesAtivas := []
        missao := orNull p.missao
        visao := orNull p.visao
        valores := p.valores.getD [] }
    rw [hset]
    dsimp only
    apply inv_updateStatus
    intro e' he'
    cases he'
    rw [hpromo, hfoto]
    simp

theorem inv_applyOp (st : StoreState) (op : Op) (h : StoreInv st) :
    StoreInv (applyOp st op) := by
  cases op with
  | createOrUpdate now t p => exact inv_createOrUpdate st now t p h
  | update now t u => exact inv_update st now t u h
  | addFoto now f => exact inv_addFoto st now f h
  | removeFoto now id => exact inv_removeFoto st now id h
  | addDepoimento now d => exact inv_addDepoimento st now d h
  | updateDepoimentoStatus id status => exact inv_updateDepoimentoStatus st id status h
  | addPromocao now p => exact inv_addPromocao st now p h
  | removePromocoesVencidas now hoje => exact inv_removePromocoes st now hoje h
  | updateStatus t => exact inv_updateStatus st t h

/-- Every reachable store state satisfies the capacity invariant. -/
theorem reachable_inv (st : StoreState) (h : Reachable st) : StoreInv st := by
  induction h with
  | init => exact inv_initial
  | step op _ ih => exact inv_applyOp _ op ih

theorem countP_not_add {α : Type} (p : α → Bool) (l : List α) :
    l.countP p + l.countP (fun a => !(p a)) = l.length := by
  induction l with
  | nil => simp
  | cons a as ih =>
    rw [List.countP_cons, List.countP_cons, List.length_cons]
    by_cases hp : p a = true
    · simp [hp]
      omega
    · rw [Bool.not_eq_true] at hp
      simp [hp]
      omega

/-! ## Concrete fixtures -/

/-- A weekday open 10:00–22:00. -/
def hdAberto : HorarioDia := { abertura := "10:00", fechamento := "22:00", fechado := false }

/-- A closed weekday. -/
def hdFechado : HorarioDia := { abertura := "10:00", fechamento := "22:00", fechado := true }

def semanaAberta : HorarioSemana :=
  ⟨hdAberto, hdAberto, hdAberto, hdAberto, hdAberto, hdAberto, hdAberto⟩

def semanaFechada : HorarioSemana :=
  ⟨hdFechado, hdFechado, hdFechado, hdFechado, hdFechado, hdFechado, hdFechado⟩

/-- A profile entity with the given weekly hours, special-hours list and
photo list; the remaining fields are fixed placeholders. -/
def entParam (semana : HorarioSemana) (especiais : List HorarioEspecial)
    (fotos : List FotoAmbiente) : SorveteriaEntity :=
  { id := 1, nomeSorveteria := "Tommasi Sorvetes", logotipo := "http://logo.png"
    slogan := none, historiaSorveteria := "nossa origem, tradição e qualidade"
    anoFundacao := 1950, diferenciais := ["qualidade", "tradição", "atendimento"]
    fundadores := "Família Tommasi", horariosSemana := semana
    horariosEspeciais := especiais, statusFuncionamento := .fechado
    fotosAmbiente := fotos, depoimentos := [], avaliacaoMedia := none
    totalAvaliacoes := 0, promocoesAtivas := [], missao := none, visao := none
    valores := [], dateCreated := "2026-01-01T00:00:00.000Z"
    dateModified := "2026-01-01T00:00:00.000Z" }

/-- Store holding the given entity, counters advanced past its contents. -/
def stParam (e : SorveteriaEntity) : StoreState :=
  { sorveteria := some e, fotosCounter := e.fotosAmbiente.length
    depoimentosCounter := 0, promocoesCounter := 0 }

/-- A special-hours entry for 2026-10-11 with the closed flag unset and
both times absent. -/
def espSemTempos : HorarioEspecial :=
  { data := "2026-10-11", descricao := "Feriado", abertura := none, fechamento := none
    fechado := false }

/-- The time context: Saturday 2026-10-11 at 15:00. -/
def tFixo : TimeCtx := { diaSemana := .sabado, horaAtual := "15:00", dataAtual := "2026-10-11" }

/-! ## Claim C4 -/

/-- C4: the expired-promotions sweep retains exactly the promotions whose
expiry date compares `≥` today (one expiring today is retained, one
strictly before today is removed), returns exactly the number removed,
and returns 0 leaving the store untouched when no Profile exists. -/
theorem claimC4_theorem (st : StoreState) (now hoje : String) :
    (st.sorveteria = none → sorveteriaRemovePromocoesVencidas st now hoje = (st, 0)) ∧
    (∀ e, st.sorveteria = some e →
      ∃ e', (sorveteriaRemovePromocoesVencidas st now hoje).1.sorveteria = some e'
        ∧ (∀ p : Promocao, p ∈ e'.promocoesAtivas ↔
            p ∈ e.promocoesAtivas ∧ jsGe p.dataValidade hoje = true)
        ∧ (∀ p : Promocao, p ∈ e.promocoesAtivas → p.dataValidade = hoje →
            p ∈ e'.promocoesAtivas)
        ∧ (∀ p : Promocao, jsLt p.dataValidade hoje = true → p ∉ e'.promocoesAtivas)
        ∧ (sorveteriaRemovePromocoesVencidas st now hoje).2
            = e.promocoesAtivas.countP (fun p => !(jsGe p.dataValidade hoje))) := by
  constructor
  · intro hnone
    rw [sorveteriaRemovePromocoesVencidas, SorveteriaStore.removePromocoesVencidas, hnone]
  · intro e he
    rw [sorveteriaRemovePromocoesVencidas, SorveteriaStore.removePromocoesVencidas, he]
    dsimp only
    have hcount : e.promocoesAtivas.length
        - (e.promocoesAtivas.filter (fun p => jsGe p.dataValidade hoje)).length
        = e.promocoesAtivas.countP (fun p => !(jsGe p.dataValidade hoje)) := by
      have h1 := countP_not_add (fun p : Promocao => jsGe p.dataValidade hoje) e.promocoesAtivas
      rw [← List.countP_eq_length_filter]
      omega
    have hmem : ∀ p : Promocao,
        p ∈ e.promocoesAtivas.filter (fun p => jsGe p.dataValidade hoje) ↔
          p ∈ e.promocoesAtivas ∧ jsGe p.dataValidade hoje = true := fun p =>
      List.mem_filter
    split_ifs with hgt
    · refine ⟨_, rfl, hmem, ?_, ?_, hcount⟩
      · intro p hp hdata
        exact (hmem p).mpr ⟨hp, hdata ▸ jsGe_refl hoje⟩
      · intro p hlt hp
        have := ((hmem p).mp hp).2
        rw [jsGe, hlt] at this
        simp at this
    · refine ⟨_, rfl, hmem, ?_, ?_, hcount⟩
      · intro p hp hdata
        exact (hmem p).mpr ⟨hp, hdata ▸ jsGe_refl hoje⟩
      · intro p hlt hp
        have := ((hmem p).mp hp).2
        rw [jsGe, hlt] at this
        simp at this

/-- A concrete promotion. -/
def promoFix (id : Nat) (dataV : String) : Promocao :=
  { id := id, titulo := "Promo", descricao := "Desc", dataValidade := dataV
    prioridade := 2, tipo := .desconto, ativa := true }

/-- Entity holding promotions dated before, on, and after 2026-10-11. -/
def entV4 : SorveteriaEntity :=
  { entParam semanaAberta [] [] with
    promocoesAtivas := [promoFix 1 "2026-10-10", promoFix 2 "2026-10-11",
      promoFix 3 "2026-12-31"] }

/-- C4 witness: the sweep on promotions dated before, on, and after today
removes exactly the strictly-earlier one, and an empty store yields 0. -/
theorem claimC4_witness :
    (sorveteriaRemovePromocoesVencidas (stParam entV4) "n" "2026-10-11").2 = 1 ∧
    sorveteriaRemovePromocoesVencidas initialState "n" "2026-10-11" = (initialState, 0) := by
  constructor
  · obtain ⟨e', _, _, _, _, hcnt⟩ :=
      (claimC4_theorem (stParam entV4) "n" "2026-10-11").2 entV4 rfl
    rw [hcnt]
    decide
  · exact (claimC4_theorem initialState "n" "2026-10-11").1 rfl

/-! ## Claim C8 -/

/-- C8: the status recompute only ever assigns `aberto` or `fechado`; the
third status value `abrindo_em_breve` is never produced by
`updateStatusFuncionamento`. -/
theorem claimC8_theorem (st : StoreState) (t : TimeCtx) (e : SorveteriaEntity)
    (he : st.sorveteria = some e) :
    ∃ e', (SorveteriaStore.updateStatusFuncionamento st t).sorveteria = some e'
      ∧ (e'.statusFuncionamento = Status.aberto ∨ e'.statusFuncionamento = Status.fechado)
      ∧ e'.statusFuncionamento ≠ Status.abrindoEmBreve := by
  obtain ⟨s, heq, hs⟩ := updateStatus_some st t e he
  rw [heq]
  refine ⟨_, rfl, hs, ?_⟩
  rcases hs with h | h <;> simp [h]

/-! ## Claim C1 -/

/-- C1 counterexample: a Profile whose special-hours entry for today has
the closed flag unset and both times absent is reported `aberto` at 15:00
under open weekly hours (the claim says the status must be `fechado`),
and flipping only the weekly-hours table flips the outcome, so the
weekly table is consulted. -/
theorem claimC1_counterexample :
    ((SorveteriaStore.updateStatusFuncionamento
        (stParam (entParam semanaAberta [espSemTempos] [])) tFixo).sorveteria.map
          (·.statusFuncionamento) = some Status.aberto) ∧
    Status.aberto ≠ Status.fechado ∧
    ((SorveteriaStore.updateStatusFuncionamento
        (stParam (entParam semanaFechada [espSemTempos] [])) tFixo).sorveteria.map
          (·.statusFuncionamento) = some Status.fechado) := by
  refine ⟨?_, by decide, ?_⟩ <;> decide

/-- C1 (amended): with a special-hours entry found for today, a set closed
flag forces `fechado`; both times present decide `aberto` iff the current
time is in `[open, close)`; but when the closed flag is unset and at least
one time is absent, the recompute falls through to the weekly-hours table
instead of reporting `fechado`. -/
theorem claimC1_theorem (st : StoreState) (t : TimeCtx) (e : SorveteriaEntity)
    (he : st.sorveteria = some e) (h : HorarioEspecial)
    (hfind : e.horariosEspeciais.find? (fun x => decide (x.data = t.dataAtual)) = some h) :
    (h.fechado = true →
      (SorveteriaStore.updateStatusFuncionamento st t).sorveteria.map (·.statusFuncionamento)
        = some Status.fechado) ∧
    (h.fechado = false → ∀ ab fe, h.abertura = some ab → h.fechamento = some fe →
      (SorveteriaStore.updateStatusFuncionamento st t).sorveteria.map (·.statusFuncionamento)
        = some (if jsGe t.horaAtual ab && jsLt t.horaAtual fe then Status.aberto
            else Status.fechado)) ∧
    (h.fechado = false → (h.abertura = none ∨ h.fechamento = none) →
      (SorveteriaStore.updateStatusFuncionamento st t).sorveteria.map (·.statusFuncionamento)
        = some (SorveteriaStore.statusFromRegular e t)) := by
  rw [SorveteriaStore.updateStatusFuncionamento, he]
  dsimp only
  rw [hfind]
  dsimp only
  refine ⟨?_, ?_, ?_⟩
  · intro hf
    rw [if_pos hf]
    rfl
  · intro hf ab fe hab hfe
    rw [if_neg (by simp [hf]), hab, hfe]
    rfl
  · intro hf habsent
    rw [if_neg (by simp [hf])]
    rcases habsent with hab | hfe
    · rw [hab]
      rcases h.fechamento with _ | fe <;> rfl
    · rw [hfe]
      rcases h.abertura with _ | ab <;> rfl

/-- C1 witness: the three branches of the amended statement at concrete
profiles — a closed special day, an in-range special window, and the
fall-through to the weekly table. -/
theorem claimC1_witness :
    ((SorveteriaStore.updateStatusFuncionamento
        (stParam (entParam semanaAberta
          [{ espSemTempos with fechado := true }] [])) tFixo).sorveteria.map
          (·.statusFuncionamento) = some Status.fechado) ∧
    ((SorveteriaStore.updateStatusFuncionamento
        (stParam (entParam semanaFechada
          [{ espSemTempos with abertura := some "14:00", fechamento := some "16:00" }]
          [])) tFixo).sorveteria.map (·.statusFuncionamento)
        = some (if jsGe tFixo.horaAtual "14:00" && jsLt tFixo.horaAtual "16:00"
            then Status.aberto else Status.fechado)) ∧
    ((SorveteriaStore.updateStatusFuncionamento
        (stParam (entParam semanaAberta [espSemTempos] [])) tFixo).sorveteria.map
          (·.statusFuncionamento)
        = some (SorveteriaStore.statusFromRegular (entParam semanaAberta [espSemTempos] [])
            tFixo)) := by
  refine ⟨?_, ?_, ?_⟩
  · exact (claimC1_theorem _ tFixo _ rfl { espSemTempos with fechado := true }
      (by decide)).1 rfl
  · exact (claimC1_theorem _ tFixo _ rfl
      { espSemTempos with abertura := some "14:00", fechamento := some "16:00" }
      (by decide)).2.1 rfl "14:00" "16:00" rfl rfl
  · exact (claimC1_theorem _ tFixo _ rfl espSemTempos (by decide)).2.2 rfl (Or.inl rfl)

/-- C8 witness: the recompute on a concrete profile yields `aberto`. -/
theorem claimC8_witness :
    ∃ e', (SorveteriaStore.updateStatusFuncionamento (stParam (entParam semanaAberta [] []))
        tFixo).sorveteria = some e'
      ∧ (e'.statusFuncionamento = Status.aberto ∨ e'.statusFuncionamento = Status.fechado)
      ∧ e'.statusFuncionamento ≠ Status.abrindoEmBreve :=
  claimC8_theorem (stParam (entParam semanaAberta [] [])) tFixo (entParam semanaAberta [] []) rfl

/-! ## Claim C2 -/

/-- C2 counterexample: `horarioDiaSchema` accepts the entry with opening
time `"9:30"`, which is not a zero-padded fixed-width `HH:MM` string; and
on the accepted pair `"9:30"`/`"10:00"` the lexical string comparison
inverts the clock order (9:30 is 570 minutes, 10:00 is 600 minutes, yet
`"9:30" >= "10:00"` lexically). -/
theorem claimC2_counterexample :
    horarioDiaSchemaOk { abertura := "9:30", fechamento := "22:00", fechado := false } = true
    ∧ isPaddedHHMM "9:30" = false
    ∧ timeVal "9:30" = some 570 ∧ timeVal "10:00" = some 600 ∧ 570 < 600
    ∧ jsLt "9:30" "10:00" = false ∧ jsGe "9:30" "10:00" = true := by
  decide

/-- C2 (amended): a time accepted by the `horarioDiaSchema` regex is
either a zero-padded `HH:MM` with hour 00–23 or a one-digit-hour `H:MM`
(hour 0–9 without the leading zero), minutes 00–59 in both shapes; every
accepted time denotes a valid clock value, but the accepted set is not
limited to fixed-width strings, so the lexical comparison used by the
status recompute is not order-correct on all accepted times. -/
theorem claimC2_theorem (s : String) :
    (timeRegexMatches s = true ↔ (isPaddedHHMM s = true ∨ isShortHMM s = true)) ∧
    (timeRegexMatches s = true → ∃ v, timeVal s = some v ∧ v ≤ 23 * 60 + 59) := by
  rcases s with ⟨l⟩
  rcases l with _ | ⟨a, _ | ⟨b, _ | ⟨c, _ | ⟨d, _ | ⟨e, _ | ⟨f, rest⟩⟩⟩⟩⟩⟩
  · simp [timeRegexMatches, isPaddedHHMM, isShortHMM]
  · simp [timeRegexMatches, isPaddedHHMM, isShortHMM]
  · simp [timeRegexMatches, isPaddedHHMM, isShortHMM]
  · simp [timeRegexMatches, isPaddedHHMM, isShortHMM]
  · have hR : timeRegexMatches ⟨[a, b, c, d]⟩
        = (decide (b.toNat = 58) && isDigitC a
            && (decide (48 ≤ c.toNat) && decide (c.toNat ≤ 53)) && isDigitC d) := rfl
    have hP : isPaddedHHMM ⟨[a, b, c, d]⟩ = false := rfl
    have hS : isShortHMM ⟨[a, b, c, d]⟩
        = (decide (b.toNat = 58) && isDigitC a && isDigitC c && isDigitC d
            && decide (10 * digitVal c + digitVal d ≤ 59)) := rfl
    have hV : timeVal ⟨[a, b, c, d]⟩
        = if b.toNat = 58 ∧ isDigitC a = true ∧ isDigitC c = true ∧ isDigitC d = true then
            some (digitVal a * 60 + (10 * digitVal c + digitVal d))
          else none := rfl
    constructor
    · rw [hR, hP, hS]
      simp only [isDigitC, digitVal, Bool.and_eq_true, Bool.or_eq_true, decide_eq_true_eq,
        Bool.false_eq_true, false_or]
      omega
    · intro hm
      rw [hR] at hm
      simp only [isDigitC, Bool.and_eq_true, decide_eq_true_eq] at hm
      have hcond : b.toNat = 58 ∧ isDigitC a = true ∧ isDigitC c = true ∧ isDigitC d = true := by
        simp only [isDigitC, Bool.and_eq_true, decide_eq_true_eq]
        omega
      refine ⟨digitVal a * 60 + (10 * digitVal c + digitVal d), ?_, ?_⟩
      · rw [hV, if_pos hcond]
      · simp only [digitVal]
        omega
  · have hR : timeRegexMatches ⟨[a, b, c, d, e]⟩
        = (decide (c.toNat = 58)
            && ((decide (48 ≤ a.toNat) && decide (a.toNat ≤ 49)) && isDigitC b
              || decide (a.toNat = 50) && decide (48 ≤ b.toNat) && decide (b.toNat ≤ 51))
            && (decide (48 ≤ d.toNat) && decide (d.toNat ≤ 53)) && isDigitC e) := rfl
    have hP : isPaddedHHMM ⟨[a, b, c, d, e]⟩
        = (decide (c.toNat = 58) && isDigitC a && isDigitC b && isDigitC d && isDigitC e
            && decide (10 * digitVal a + digitVal b ≤ 23)
            && decide (10 * digitVal d + digitVal e ≤ 59)) := rfl
    have hS : isShortHMM ⟨[a, b, c, d, e]⟩ = false := rfl
    have hV : timeVal ⟨[a, b, c, d, e]⟩
        = if c.toNat = 58 ∧ isDigitC a = true ∧ isDigitC b = true
              ∧ isDigitC d = true ∧ isDigitC e = true then
            some ((10 * digitVal a + digitVal b) * 60 + (10 * digitVal d + digitVal e))
          else none := rfl
    constructor
    · rw [hR, hP, hS]
      simp only [isDigitC, digitVal, Bool.and_eq_true, Bool.or_eq_true, decide_eq_true_eq,
        Bool.false_eq_true, or_false]
      omega
    · intro hm
      rw [hR] at hm
      simp only [isDigitC, Bool.and_eq_true, Bool.or_eq_true, decide_eq_true_eq] at hm
      have hcond : c.toNat = 58 ∧ isDigitC a = true ∧ isDigitC b = true
          ∧ isDigitC d = true ∧ isDigitC e = true := by
        simp only [isDigitC, Bool.and_eq_true, decide_eq_true_eq]
        omega
      refine ⟨(10 * digitVal a + digitVal b) * 60 + (10 * digitVal d + digitVal e), ?_, ?_⟩
      · rw [hV, if_pos hcond]
      · simp only [digitVal]
        omega
  · simp [timeRegexMatches, isPaddedHHMM, isShortHMM]

/-- C2 witness: the amended characterization evaluated at the accepted
non-padded time `"9:30"` and at the padded time `"09:30"`. -/
theorem claimC2_witness :
    (timeRegexMatches "9:30" = true ↔ (isPaddedHHMM "9:30" = true ∨ isShortHMM "9:30" = true))
    ∧ (∃ v, timeVal "9:30" = some v ∧ v ≤ 23 * 60 + 59)
    ∧ (timeRegexMatches "09:30" = true ↔
        (isPaddedHHMM "09:30" = true ∨ isShortHMM "09:30" = true)) := by
  have h1 := claimC2_theorem "9:30"
  have h2 := claimC2_theorem "09:30"
  exact ⟨h1.1, h1.2 (by decide), h2.1⟩

/-! ## Claims C3 and C10: testimonial operations -/

/-- Each element of `setStatusFirst id status l` is an element of `l`,
possibly with its moderation status replaced by `status`. -/
theorem setStatusFirst_mem (depId : Nat) (status : StatusModeracao) (l : List Depoimento) :
    ∀ x ∈ SorveteriaStore.setStatusFirst depId status l,
      x ∈ l ∨ ∃ y ∈ l, x = { y with statusModeracao := status } := by
  induction l with
  | nil => simp [SorveteriaStore.setStatusFirst]
  | cons d ds ih =>
    rw [SorveteriaStore.setStatusFirst]
    by_cases hd : d.id = depId
    · rw [if_pos hd]
      intro x hx
      rcases List.mem_cons.mp hx with h1 | h1
      · exact Or.inr ⟨d, List.mem_cons_self _ _, h1⟩
      · exact Or.inl (List.mem_cons_of_mem _ h1)
    · rw [if_neg hd]
      intro x hx
      rcases List.mem_cons.mp hx with h1 | h1
      · exact Or.inl (h1 ▸ List.mem_cons_self _ _)
      · rcases ih x h1 with h2 | ⟨y, hy, h2⟩
        · exact Or.inl (List.mem_cons_of_mem _ h2)
        · exact Or.inr ⟨y, List.mem_cons_of_mem _ hy, h2⟩

/-- The spec's average-rating contract: the rating count is the number of
approved testimonials, and the average is `null` when none is approved and
otherwise the sum of approved ratings over their count, rounded to one
decimal. -/
def mediaConforme (e : SorveteriaEntity) : Prop :=
  e.totalAvaliacoes = (SorveteriaStore.aprovadosOf e.depoimentos).length
  ∧ (SorveteriaStore.aprovadosOf e.depoimentos = [] → e.avaliacaoMedia = none)
  ∧ (SorveteriaStore.aprovadosOf e.depoimentos ≠ [] →
      e.avaliacaoMedia = some (roundTo1
        (((((SorveteriaStore.aprovadosOf e.depoimentos).map (·.avaliacao)).sum : ℕ) : ℚ)
          / ((SorveteriaStore.aprovadosOf e.depoimentos).length : ℚ))))

theorem mediaConforme_recalc (x : SorveteriaEntity) :
    mediaConforme (SorveteriaStore.recalcularAvaliacaoMedia x) := by
  have hdep := recalc_depoimentos x
  by_cases hap : SorveteriaStore.aprovadosOf x.depoimentos = []
  · obtain ⟨hm, ht⟩ := recalc_none x hap
    refine ⟨?_, fun _ => hm, fun hne => ?_⟩
    · rw [ht, hdep, hap]
      rfl
    · rw [hdep, hap] at hne
      exact absurd rfl hne
  · obtain ⟨hm, ht⟩ := recalc_some x hap
    refine ⟨?_, fun hemp => ?_, fun _ => ?_⟩
    · rw [ht, hdep]
    · rw [hdep] at hemp
      exact absurd hemp hap
    · rw [hm, hdep]

/-- C3: adding a testimonial and updating a testimonial's moderation
status both re-establish the average-rating contract (`mediaConforme`):
the average is the one-decimal rounding of the mean of approved ratings
(`null`/0 when none approved), pending and rejected testimonials are
excluded, and the stored testimonial list is preserved — the add appends a
pending entry, the status update only replaces one status. -/
theorem claimC3_theorem (st : StoreState) (now : String) (d : DepoimentoCreateInput)
    (depId : Nat) (status : StatusModeracao) (e : SorveteriaEntity)
    (he : st.sorveteria = some e) :
    (∃ e', (SorveteriaStore.addDepoimento st now d).1.sorveteria = some e'
      ∧ mediaConforme e'
      ∧ e'.depoimentos = e.depoimentos
          ++ [{ id := st.depoimentosCounter + 1, nomeCliente := d.nomeCliente,
                texto := d.texto, avaliacao := d.avaliacao,
                statusModeracao := .pendente, dataCriacao := now }]) ∧
    (∀ dep, e.depoimentos.find? (fun x => decide (x.id = depId)) = some dep →
      ∃ e', (SorveteriaStore.updateDepoimentoStatus st depId status).1.sorveteria = some e'
        ∧ mediaConforme e'
        ∧ e'.depoimentos.map (·.id) = e.depoimentos.map (·.id)
        ∧ (∀ x ∈ e'.depoimentos,
            x ∈ e.depoimentos ∨ ∃ y ∈ e.depoimentos,
              x = { y with statusModeracao := status })) := by
  constructor
  · rw [SorveteriaStore.addDepoimento, he]
    dsimp only
    refine ⟨_, rfl, mediaConforme_recalc _, ?_⟩
    rw [recalc_depoimentos]
  · intro dep hfind
    rw [SorveteriaStore.updateDepoimentoStatus, he]
    dsimp only
    rw [hfind]
    dsimp only
    refine ⟨_, rfl, mediaConforme_recalc _, ?_, ?_⟩
    · rw [recalc_depoimentos]
      exact setStatusFirst_map_id depId status e.depoimentos
    · rw [recalc_depoimentos]
      exact setStatusFirst_mem depId status e.depoimentos

/-- Testimonial with the given id, rating and status. -/
def depFix (id avaliacao : Nat) (status : StatusModeracao) : Depoimento :=
  { id := id, nomeCliente := "Cliente", texto := "Ótimo", avaliacao := avaliacao
    statusModeracao := status, dataCriacao := "2026-01-02T00:00:00.000Z" }

/-- Entity holding two approved testimonials rated 5 and 3. -/
def entDep : SorveteriaEntity :=
  { entParam semanaAberta [] [] with
    depoimentos := [depFix 1 5 .aprovado, depFix 2 3 .aprovado]
    avaliacaoMedia := some 4, totalAvaliacoes := 2 }

/-- The store of `entDep`, with the testimonial counter at 2. -/
def stDep : StoreState :=
  { sorveteria := some entDep, fotosCounter := 0, depoimentosCounter := 2
    promocoesCounter := 0 }

/-- A rating-4 testimonial payload. -/
def dep4 : DepoimentoCreateInput := { nomeCliente := "N", texto := "T", avaliacao := 4 }

/-- C3 witness: the theorem applied to the profile with approved ratings
[5,3] and a concrete rating-4 testimonial payload. -/
theorem claimC3_witness :
    ∃ e', (SorveteriaStore.addDepoimento stDep "2026-01-03" dep4).1.sorveteria = some e'
      ∧ mediaConforme e'
      ∧ e'.depoimentos = entDep.depoimentos
          ++ [{ id := 3, nomeCliente := "N", texto := "T", avaliacao := 4
                statusModeracao := .pendente, dataCriacao := "2026-01-03" }] :=
  (claimC3_theorem stDep "2026-01-03" dep4 1 .rejeitado entDep rfl).1

/-- C10: adding a testimonial and updating a testimonial's moderation
status leave the last-modified timestamp and every Profile field other
than the testimonial list, the average rating and the rating count
unchanged — while adding a photo or a promotion refreshes the
last-modified timestamp to the current instant. -/
theorem claimC10_theorem (st : StoreState) (now : String) (d : DepoimentoCreateInput)
    (depId : Nat) (status : StatusModeracao) (e : SorveteriaEntity)
    (he : st.sorveteria = some e) :
    (∃ e', (SorveteriaStore.addDepoimento st now d).1.sorveteria = some e'
      ∧ outrosCampos e' = outrosCampos e ∧ e'.dateModified = e.dateModified) ∧
    (∃ e', (SorveteriaStore.updateDepoimentoStatus st depId status).1.sorveteria = some e'
      ∧ outrosCampos e' = outrosCampos e ∧ e'.dateModified = e.dateModified) ∧
    (∀ url desc cat, ∃ e',
      (SorveteriaStore.addFoto st now url desc cat).1.sorveteria = some e'
        ∧ e'.dateModified = now) ∧
    (∀ p : PromocaoCreateInput, ∃ e',
      (SorveteriaStore.addPromocao st now p).1.sorveteria = some e'
        ∧ e'.dateModified = now) := by
  refine ⟨?_, ?_, ?_, ?_⟩
  · rw [SorveteriaStore.addDepoimento, he]
    dsimp only
    refine ⟨_, rfl, ?_, ?_⟩
    · rw [recalc_outrosCampos]
      rfl
    · rw [recalc_dateModified]
  · rw [SorveteriaStore.updateDepoimentoStatus, he]
    dsimp only
    rcases hfind : e.depoimentos.find? (fun x => decide (x.id = depId)) with _ | dep
    · rw [hfind]
      exact ⟨e, he, rfl, rfl⟩
    · rw [hfind]
      dsimp only
      refine ⟨_, rfl, ?_, ?_⟩
      · rw [recalc_outrosCampos]
        rfl
      · rw [recalc_dateModified]
  · intro url desc cat
    rw [SorveteriaStore.addFoto, he]
    exact ⟨_, rfl, rfl⟩
  · intro p
    rw [SorveteriaStore.addPromocao, he]
    exact ⟨_, rfl, rfl⟩

/-- C10 witness: the frame conditions at a concrete profile. -/
theorem claimC10_witness :
    ∃ e', (SorveteriaStore.addDepoimento stDep "2026-01-03" dep4).1.sorveteria = some e'
      ∧ outrosCampos e' = outrosCampos entDep ∧ e'.dateModified = entDep.dateModified :=
  (claimC10_theorem stDep "2026-01-03" dep4 1 .rejeitado entDep rfl).1

/-! ## Claim C7 -/

/-- A structurally valid payload passing both content keyword rules. -/
def pValida : CreateInput :=
  { nomeSorveteria := "Tommasi Sorvetes", logotipo := "http://logo.png", slogan := none
    historiaSorveteria := "nossa origem, tradição e qualidade", anoFundacao := 1950
    diferenciais := ["qualidade", "tradição", "atendimento"], fundadores := "x"
    horariosSemana := semanaAberta, horariosEspeciais := none, missao := none
    visao := none, valores := none }

/-- A valid photo payload. -/
def fotoIn : FotoCreateInput :=
  { url := "http://f.png", descricao := none, categoria := .geral }

/-- The state reached by a successful create followed by three photo
adds. -/
def stFotosReach : StoreState :=
  applyOp (applyOp (applyOp (applyOp initialState
    (.createOrUpdate "now" tFixo pValida)) (.addFoto "n1" fotoIn))
    (.addFoto "n2" fotoIn)) (.addFoto "n3" fotoIn)

theorem reachFotos : Reachable stFotosReach :=
  .step _ (.step _ (.step _ (.step _ .init)))

/-- The entity stored in `stFotosReach`. -/
def entFotosReach : SorveteriaEntity :=
  stFotosReach.sorveteria.getD (entParam semanaAberta [] [])

/-- A successful service photo removal leaves a record with exactly one
photo fewer. -/
theorem removeFoto_ok_shape (st : StoreState) (now : String) (id : Nat)
    (e : SorveteriaEntity) (he : st.sorveteria = some e)
    (hok : (sorveteriaRemoveFoto st now id).2 = .ok ()) :
    ∃ e', (sorveteriaRemoveFoto st now id).1.sorveteria = some e'
      ∧ e'.fotosAmbiente.length + 1 = e.fotosAmbiente.length := by
  rw [sorveteriaRemoveFoto, SorveteriaStore.removeFoto, he] at hok ⊢
  dsimp only at hok ⊢
  split_ifs at hok ⊢ with hany
  exact ⟨_, rfl, removeFirstFoto_length id _ hany⟩

/-- C7: with a Profile present, the photo add fails LIMIT_EXCEEDED exactly
when the photo list already holds 12 or more photos, a failed add leaves
the store unchanged, and in any reachable state, after any successful
photo removal a subsequent add succeeds. -/
theorem claimC7_theorem (st : StoreState) (now : String) (f : FotoCreateInput)
    (e : SorveteriaEntity) (hr : Reachable st) (he : st.sorveteria = some e) :
    ((sorveteriaAddFoto st now f).2
        = .error ⟨.limitExceeded, "Maximum of 12 photos allowed"⟩
      ↔ 12 ≤ e.fotosAmbiente.length) ∧
    (12 ≤ e.fotosAmbiente.length → (sorveteriaAddFoto st now f).1 = st) ∧
    (∀ id now2, (sorveteriaRemoveFoto st now2 id).2 = .ok () →
      ∃ foto, (sorveteriaAddFoto (sorveteriaRemoveFoto st now2 id).1 now f).2
        = .ok foto) := by
  have hlim12 := (reachable_inv st hr e he).2.2
  refine ⟨?_, ?_, ?_⟩
  · rw [sorveteriaAddFoto, SorveteriaStore.get, he]
    dsimp only
    split_ifs with hge
    · simp only [SORVETERIA_LIMITS.MAX_FOTOS_AMBIENTE] at hge
      simpa using hge
    · simp only [SORVETERIA_LIMITS.MAX_FOTOS_AMBIENTE] at hge
      rw [SorveteriaStore.addFoto, he]
      dsimp only
      constructor
      · intro habs
        exact absurd habs (by simp)
      · intro h12
        exact absurd h12 hge
  · intro h12
    rw [sorveteriaAddFoto, SorveteriaStore.get, he]
    dsimp only
    rw [if_pos (by simpa [SORVETERIA_LIMITS.MAX_FOTOS_AMBIENTE] using h12)]
  · intro id now2 hok
    obtain ⟨e1, he1, hlen⟩ := removeFoto_ok_shape st now2 id e he hok
    rw [sorveteriaAddFoto, SorveteriaStore.get, he1]
    dsimp only
    rw [if_neg (by simp only [SORVETERIA_LIMITS.MAX_FOTOS_AMBIENTE]; omega)]
    rw [SorveteriaStore.addFoto, he1]
    dsimp only
    exact ⟨_, rfl⟩

/-- C7 witness: in the reachable three-photo state built by three adds,
adding is not at the limit; removing photo 1 and then adding succeeds. -/
theorem claimC7_witness :
    ∃ foto, (sorveteriaAddFoto
        (sorveteriaRemoveFoto stFotosReach "t2" 1).1 "t3"
        { url := "http://u.png", descricao := none, categoria := .geral }).2
      = .ok foto :=
  (claimC7_theorem stFotosReach "t3"
    { url := "http://u.png", descricao := none, categoria := .geral }
    entFotosReach reachFotos (by decide)).2.2 1 "t2" (by decide)

/-! ## Claim C5 -/

/-- A valid promotion payload with the given priority. -/
def promoIn (pr : Nat) : PromocaoCreateInput :=
  { titulo := "Promo", descricao := "Desc", dataValidade := "2026-12-31"
    prioridade := pr, tipo := .desconto }

/-- The state reached by a successful create followed by three promotion
adds with priorities 1, 2, 2. -/
def stPromos : StoreState :=
  applyOp (applyOp (applyOp (applyOp initialState
    (.createOrUpdate "now" tFixo pValida)) (.addPromocao "n1" (promoIn 1)))
    (.addPromocao "n2" (promoIn 2))) (.addPromocao "n3" (promoIn 2))

theorem reachPromos : Reachable stPromos :=
  .step _ (.step _ (.step _ (.step _ .init)))

/-- The entity stored in `stPromos`. -/
def entPromos : SorveteriaEntity :=
  stPromos.sorveteria.getD (entParam semanaAberta [] [])

/-- C5 counterexample: in the reachable state with three active promotions
one of which has priority 1, adding another priority-1 promotion fails
LIMIT_EXCEEDED — not PRIORITY_CONFLICT as the claim states, because the
limit check runs first. -/
theorem claimC5_counterexample :
    Reachable stPromos
    ∧ stPromos.sorveteria.map (fun e => e.promocoesAtivas.length) = some 3
    ∧ stPromos.sorveteria.map
        (fun e => e.promocoesAtivas.countP (fun q => decide (q.prioridade = 1))) = some 1
    ∧ (sorveteriaAddPromocao stPromos "n4" (promoIn 1)).2
        = .error ⟨.limitExceeded, "Maximum of 3 active promotions allowed"⟩
    ∧ (sorveteriaAddPromocao stPromos "n4" (promoIn 1)).2
        ≠ .error ⟨.priorityConflict, "Only one promotion can have priority 1"⟩ := by
  exact ⟨reachPromos, by decide, by decide, by decide, by decide⟩

/-- C5 (amended): every reachable state has at most 3 active promotions
and at most one with priority 1; with a Profile present, adding any
promotion when 3 or more are active fails LIMIT_EXCEEDED (this check runs
first), and adding a priority-1 promotion when fewer than 3 are active and
an active priority-1 promotion exists fails PRIORITY_CONFLICT; both
failures leave the store unchanged. -/
theorem claimC5_theorem :
    (∀ st, Reachable st → ∀ e, st.sorveteria = some e →
      e.promocoesAtivas.length ≤ 3
        ∧ e.promocoesAtivas.countP (fun p => decide (p.prioridade = 1)) ≤ 1) ∧
    (∀ st now p e, st.sorveteria = some e → 3 ≤ e.promocoesAtivas.length →
      sorveteriaAddPromocao st now p
        = (st, .error ⟨.limitExceeded, "Maximum of 3 active promotions allowed"⟩)) ∧
    (∀ st now p e, st.sorveteria = some e → e.promocoesAtivas.length < 3 →
      p.prioridade = 1 →
      e.promocoesAtivas.any (fun q => decide (q.prioridade = 1)) = true →
      sorveteriaAddPromocao st now p
        = (st, .error ⟨.priorityConflict, "Only one promotion can have priority 1"⟩)) := by
  refine ⟨?_, ?_, ?_⟩
  · intro st hr e he
    obtain ⟨h1, h2, _⟩ := reachable_inv st hr e he
    exact ⟨h1, h2⟩
  · intro st now p e he h3
    rw [sorveteriaAddPromocao, SorveteriaStore.get, he]
    dsimp only
    rw [if_pos (by simpa [SORVETERIA_LIMITS.MAX_PROMOCOES] using h3)]
  · intro st now p e he hlt hp hany
    rw [sorveteriaAddPromocao, SorveteriaStore.get, he]
    dsimp only
    rw [if_neg (by simp only [SORVETERIA_LIMITS.MAX_PROMOCOES]; omega),
      if_pos (by simp [hp, hany])]

/-- The state reached by a successful create followed by one priority-1
promotion add. -/
def stPromo1 : StoreState :=
  applyOp (applyOp initialState (.createOrUpdate "now" tFixo pValida))
    (.addPromocao "n1" (promoIn 1))

theorem reachPromo1 : Reachable stPromo1 := .step _ (.step _ .init)

/-- The entity stored in `stPromo1`. -/
def entPromo1 : SorveteriaEntity :=
  stPromo1.sorveteria.getD (entParam semanaAberta [] [])

/-- C5 witness: the invariant at the reachable three-promotion state, the
LIMIT_EXCEEDED failure there, and the PRIORITY_CONFLICT failure at the
reachable one-priority-1-promotion state. -/
theorem claimC5_witness :
    (entPromos.promocoesAtivas.length ≤ 3
      ∧ entPromos.promocoesAtivas.countP (fun p => decide (p.prioridade = 1)) ≤ 1)
    ∧ sorveteriaAddPromocao stPromos "n4" (promoIn 2)
        = (stPromos, .error ⟨.limitExceeded, "Maximum of 3 active promotions allowed"⟩)
    ∧ sorveteriaAddPromocao stPromo1 "n2" (promoIn 1)
        = (stPromo1, .error ⟨.priorityConflict, "Only one promotion can have priority 1"⟩) := by
  refine ⟨claimC5_theorem.1 stPromos reachPromos entPromos (by decide),
    claimC5_theorem.2.1 stPromos "n4" (promoIn 2) entPromos (by decide) (by decide),
    claimC5_theorem.2.2 stPromo1 "n2" (promoIn 1) entPromo1 (by decide) (by decide)
      (by decide) (by decide)⟩

/-! ## Claim C9 -/

/-- A concrete photo. -/
def fotoFix (id ordem : Nat) : FotoAmbiente :=
  { id := id, url := "http://foto.png", descricao := none, categoria := .geral, ordem := ordem }

/-- Store holding three photos with display orders 1, 2, 3. -/
def stFotos : StoreState :=
  stParam (entParam semanaAberta [] [fotoFix 1 1, fotoFix 2 2, fotoFix 3 3])

/-- C9: a successful photo add assigns display order = photo-count before
insertion + 1 and appends; removing a photo keeps every remaining photo
record (and so its display order) unchanged — no renumbering; and in the
concrete remove-then-add run on orders [1,2,3] the resulting orders are
[2,3,3], not pairwise distinct. -/
theorem claimC9_theorem :
    (∀ st now url desc cat e, st.sorveteria = some e →
      ∃ f st', SorveteriaStore.addFoto st now url desc cat = (st', some f)
        ∧ f.ordem = e.fotosAmbiente.length + 1
        ∧ ∃ e', st'.sorveteria = some e' ∧ e'.fotosAmbiente = e.fotosAmbiente ++ [f]) ∧
    (∀ st now id e, st.sorveteria = some e →
      ∀ e', (SorveteriaStore.removeFoto st now id).1.sorveteria = some e' →
        ∀ f ∈ e'.fotosAmbiente, f ∈ e.fotosAmbiente) ∧
    ((SorveteriaStore.addFoto (SorveteriaStore.removeFoto stFotos "t2" 1).1 "t2"
        "http://u.png" none .geral).1.sorveteria.map
          (fun e => e.fotosAmbiente.map (·.ordem)) = some [2, 3, 3]
      ∧ ¬ ([2, 3, 3] : List Nat).Nodup) := by
  refine ⟨?_, ?_, by decide, by decide⟩
  · intro st now url desc cat e he
    rw [SorveteriaStore.addFoto, he]
    exact ⟨_, _, rfl, rfl, _, rfl, rfl⟩
  · intro st now id e he e' he'
    rw [SorveteriaStore.removeFoto, he] at he'
    dsimp only at he'
    split_ifs at he' with hany
    · dsimp only at he'
      cases he'
      exact removeFirstFoto_subset id e.fotosAmbiente
    · rw [he] at he'
      cases he'
      intro f hf
      exact hf

/-- C9 witness: the add half at the three-photo store — the new photo gets
display order 4. -/
theorem claimC9_witness :
    ∃ f st', SorveteriaStore.addFoto stFotos "t3" "http://u.png" none .geral = (st', some f)
      ∧ f.ordem = (entParam semanaAberta [] [fotoFix 1 1, fotoFix 2 2,
          fotoFix 3 3]).fotosAmbiente.length + 1
      ∧ ∃ e', st'.sorveteria = some e'
        ∧ e'.fotosAmbiente = (entParam semanaAberta [] [fotoFix 1 1, fotoFix 2 2,
            fotoFix 3 3]).fotosAmbiente ++ [f] :=
  claimC9_theorem.1 stFotos "t3" "http://u.png" none .geral _ rfl

/-! ## Claim C6 -/

/-- C6: for a structurally valid payload, the create-or-update operation
fails with a validation error naming exactly the required history keywords
missing from the lowercased history text (checked first), or exactly the
required differentiator keywords covered by no lowercased differentiator
(checked second), and in either case the store is left unchanged. -/
theorem claimC6_theorem (st : StoreState) (now : String) (t : TimeCtx) (p : CreateInput) :
    (∀ el, el ∈ missingElementsOf p.historiaSorveteria ↔
        el ∈ requiredElements
          ∧ containsSub (toLowerCase p.historiaSorveteria) el = false) ∧
    (missingElementsOf p.historiaSorveteria ≠ [] →
      sorveteriaCreateOrUpdate st now t p
        = (st, .error ⟨.validationFailed, "História deve incluir: "
            ++ String.intercalate ", " (missingElementsOf p.historiaSorveteria)⟩)) ∧
    (∀ req, req ∈ missingDiferenciaisOf p.diferenciais ↔
        req ∈ requiredDiferenciais
          ∧ ∀ d ∈ p.diferenciais, containsSub (toLowerCase d) req = false) ∧
    (missingElementsOf p.historiaSorveteria = [] →
      missingDiferenciaisOf p.diferenciais ≠ [] →
      sorveteriaCreateOrUpdate st now t p
        = (st, .error ⟨.validationFailed, "Diferenciais devem incluir: "
            ++ String.intercalate ", " (missingDiferenciaisOf p.diferenciais)⟩)) := by
  refine ⟨?_, ?_, ?_, ?_⟩
  · intro el
    rw [missingElementsOf, List.mem_filter]
    simp [Bool.not_eq_true']
  · intro hne
    rw [sorveteriaCreateOrUpdate]
    dsimp only
    rw [if_pos (by simpa [List.length_pos] using hne)]
  · intro req
    rw [missingDiferenciaisOf, List.mem_filter]
    simp only [Bool.not_eq_true', List.any_eq_false, List.mem_map, decide_eq_true_eq,
      and_congr_right_iff]
    intro _
    constructor
    · intro hall d hd
      exact Bool.not_eq_true _ ▸ hall (toLowerCase d) ⟨d, hd, rfl⟩
    · rintro hall x ⟨d, hd, rfl⟩
      exact Bool.not_eq_true _ ▸ hall d hd
  · intro h1 h2
    rw [sorveteriaCreateOrUpdate]
    dsimp only
    rw [if_neg (by simp [h1]), if_pos (by simpa [List.length_pos] using h2)]

/-- A structurally valid payload whose history lacks "origem". -/
def pSemOrigem : CreateInput :=
  { nomeSorveteria := "Tommasi Sorvetes", logotipo := "http://logo.png", slogan := none
    historiaSorveteria := "casa de tradição e qualidade", anoFundacao := 1950
    diferenciais := ["qualidade", "tradição", "atendimento"], fundadores := "x"
    horariosSemana := semanaAberta, horariosEspeciais := none, missao := none
    visao := none, valores := none }

/-- A structurally valid payload whose differentiators cover nothing of
"atendimento". -/
def pSemAtendimento : CreateInput :=
  { pSemOrigem with
    historiaSorveteria := "nossa origem, tradição e qualidade"
    diferenciais := ["qualidade", "tradição"] }

/-- C6 witness: concrete payloads produce validation failures naming
exactly the missing keyword, with the store unchanged. -/
theorem claimC6_witness :
    sorveteriaCreateOrUpdate initialState "n" tFixo pSemOrigem
      = (initialState, .error ⟨.validationFailed, "História deve incluir: origem"⟩)
    ∧ sorveteriaCreateOrUpdate initialState "n" tFixo pSemAtendimento
      = (initialState, .error ⟨.validationFailed, "Diferenciais devem incluir: atendimento"⟩) := by
  constructor
  · have h := (claimC6_theorem initialState "n" tFixo pSemOrigem).2.1 (by decide)
    rw [show missingElementsOf pSemOrigem.historiaSorveteria = ["origem"] by decide] at h
    exact h
  · have h := (claimC6_theorem initialState "n" tFixo pSemAtendimento).2.2.2 (by decide)
      (by decide)
    rw [show missingDiferenciaisOf pSemAtendimento.diferenciais = ["atendimento"] by decide]
      at h
    exact h

end Sorveteria
